import Mathlib

/-!
Verification of the Crop-Disease-Detection backend.

Shallow embedding of `backend/disease_treatments.py`, `backend/model_utils.py`
and the `/predict` pipeline of `backend/main.py`.  Python dynamic values that
the knowledge base can hold are modelled by a small JSON type (strings and
objects are the only shapes the code ever distinguishes); Python dicts are
association lists with last-write-wins insertion; Python exceptions are the
`Except` monad; machine floats are modelled by exact rationals.
-/

set_option autoImplicit false
set_option maxRecDepth 8000

namespace CropDisease

/-- JSON-like dynamic value: the knowledge-base files hold nested objects whose
leaves are strings, and the code only ever distinguishes "has .items()"
(object) from "does not" (string). -/
inductive Json where
  | str (s : String)
  | obj (fields : List (String × Json))

/-- A Python dict with string keys, in insertion order. -/
abbrev Dict := List (String × Json)

/-- Python dict assignment `d[k] = v`: overwrite in place when the key exists,
append otherwise. -/
def dictInsert (d : Dict) (k : String) (v : Json) : Dict :=
  if d.any (fun p => p.1 = k) then
    d.map (fun p => if p.1 = k then (k, v) else p)
  else
    d ++ [(k, v)]

/-- Python dict lookup `d[k]` as an option (first matching key). -/
def dictGet (d : Dict) (k : String) : Option Json :=
  (d.find? (fun p => p.1 = k)).map (fun p => p.2)

/-- Python membership test `k in d`. -/
def dictContains (d : Dict) (k : String) : Bool :=
  d.any (fun p => p.1 = k)

/-- All keys of the dict are distinct. -/
def uniqueKeys (d : Dict) : Prop :=
  (d.map Prod.fst).Nodup

/-- `flatten_disease_database` (disease_treatments.py lines 40-57): iterate
category -> crop -> disease and collect the innermost level into one dict.
Iterating `.items()` of a non-dict raises `AttributeError`, modelled as an
`Except.error`. -/
def flatten_disease_database (j : Json) : Except String Dict :=
  match j with
  | .str _ => .error "AttributeError"
  | .obj cats =>
    cats.foldlM (fun acc p =>
      match p.2 with
      | .str _ => .error "AttributeError"
      | .obj crops =>
        crops.foldlM (fun acc2 q =>
          match q.2 with
          | .str _ => .error "AttributeError"
          | .obj diseases =>
            .ok (diseases.foldl (fun a r => dictInsert a r.1 r.2) acc2)) acc) []

/-- Helper to build a three-field disease record. -/
def mkRecord (description treatment prevention : String) : Json :=
  .obj [("description", .str description),
        ("treatment", .str treatment),
        ("prevention", .str prevention)]

/-- `get_default_treatments` (disease_treatments.py lines 59-152): the embedded
default table of 17 disease records, transcribed verbatim. -/
def get_default_treatments : Dict :=
  [("Tomato Bacterial Spot", mkRecord
      "Bacterial spot is a common disease of tomato caused by Xanthomonas vesicatoria"
      "Apply copper-based fungicides, improve air circulation, avoid overhead watering, remove infected plant debris"
      "Use disease-free seeds, practice crop rotation, maintain proper spacing between plants"),
   ("Tomato Early Blight", mkRecord
      "Early blight is caused by the fungus Alternaria solani"
      "Apply fungicides containing chlorothalonil or copper, remove infected leaves, improve air circulation"
      "Mulch around plants, avoid overhead watering, practice crop rotation"),
   ("Tomato Late Blight", mkRecord
      "Late blight is caused by the oomycete Phytophthora infestans"
      "Apply fungicides containing chlorothalonil or copper, remove infected plants immediately"
      "Avoid overhead watering, ensure good drainage, practice crop rotation"),
   ("Tomato Leaf Mold", mkRecord
      "Leaf mold is caused by the fungus Passalora fulva"
      "Apply fungicides, improve air circulation, reduce humidity"
      "Use resistant varieties, maintain proper spacing, avoid overhead watering"),
   ("Tomato Septoria Leaf Spot", mkRecord
      "Septoria leaf spot is caused by the fungus Septoria lycopersici"
      "Apply fungicides containing chlorothalonil, remove infected leaves"
      "Practice crop rotation, avoid overhead watering, maintain clean garden"),
   ("Tomato Spider Mites", mkRecord
      "Spider mites are tiny arachnids that feed on plant sap"
      "Apply insecticidal soap or neem oil, increase humidity, remove heavily infested leaves"
      "Regular monitoring, maintain proper humidity, avoid over-fertilization"),
   ("Tomato Target Spot", mkRecord
      "Target spot is caused by the fungus Corynespora cassiicola"
      "Apply fungicides, improve air circulation, remove infected leaves"
      "Practice crop rotation, maintain proper spacing, avoid overhead watering"),
   ("Tomato Yellow Leaf Curl Virus", mkRecord
      "Yellow leaf curl virus is transmitted by whiteflies"
      "Control whitefly populations, remove infected plants, apply systemic insecticides"
      "Use resistant varieties, control weeds, monitor for whiteflies"),
   ("Tomato Mosaic Virus", mkRecord
      "Mosaic virus is transmitted by aphids and mechanical means"
      "Remove infected plants, control aphid populations, disinfect tools"
      "Use disease-free seeds, control aphids, practice good hygiene"),
   ("Tomato Healthy", mkRecord
      "The tomato plant appears healthy with no visible disease symptoms"
      "Continue current care practices, monitor regularly for any changes"
      "Maintain proper watering, fertilization, and pest management"),
   ("Potato Early Blight", mkRecord
      "Early blight in potatoes is caused by Alternaria solani"
      "Apply fungicides containing chlorothalonil, remove infected foliage"
      "Practice crop rotation, maintain proper spacing, avoid overhead watering"),
   ("Potato Late Blight", mkRecord
      "Late blight in potatoes is caused by Phytophthora infestans"
      "Apply fungicides containing chlorothalonil or copper, remove infected plants"
      "Avoid overhead watering, ensure good drainage, practice crop rotation"),
   ("Potato Healthy", mkRecord
      "The potato plant appears healthy with no visible disease symptoms"
      "Continue current care practices, monitor regularly for any changes"
      "Maintain proper watering, fertilization, and pest management"),
   ("Corn Northern Leaf Blight", mkRecord
      "Northern leaf blight is caused by the fungus Exserohilum turcicum"
      "Apply fungicides containing azoxystrobin or propiconazole"
      "Use resistant varieties, practice crop rotation, maintain proper spacing"),
   ("Corn Common Rust", mkRecord
      "Common rust is caused by the fungus Puccinia sorghi"
      "Apply fungicides containing azoxystrobin or propiconazole"
      "Use resistant varieties, practice crop rotation, avoid overhead watering"),
   ("Corn Gray Leaf Spot", mkRecord
      "Gray leaf spot is caused by the fungus Cercospora zeae-maydis"
      "Apply fungicides containing azoxystrobin or propiconazole"
      "Use resistant varieties, practice crop rotation, maintain proper spacing"),
   ("Corn Healthy", mkRecord
      "The corn plant appears healthy with no visible disease symptoms"
      "Continue current care practices, monitor regularly for any changes"
      "Maintain proper watering, fertilization, and pest management")]

/-- State of the hierarchical knowledge-base file: missing, present but
unreadable/unparsable (open or `json.load` raises), or parsed JSON. -/
inductive HierResource where
  | absent
  | corrupt
  | present (j : Json)

/-- State of the flat knowledge-base file: missing, unreadable/unparsable, or
parsed as a JSON object (the dict the code returns directly). -/
inductive FlatResource where
  | absent
  | corrupt
  | present (d : Dict)

/-- The two knowledge-base files the loader consults. -/
structure KBState where
  comprehensive : HierResource
  flat : FlatResource

/-- `load_treatments_database` (disease_treatments.py lines 16-38).  The whole
body sits in a single `try`: a raise at any point (parse failure, or
`AttributeError` from flattening) jumps to the one `except`, which returns the
default table.  Only the `os.path.exists` test being false reaches the next
tier. -/
def load_treatments_database (kb : KBState) : Dict :=
  match kb.comprehensive with
  | .present j =>
    match flatten_disease_database j with
    | .ok c => c
    | .error _ => get_default_treatments
  | .corrupt => get_default_treatments
  | .absent =>
    match kb.flat with
    | .present d => d
    | .corrupt => get_default_treatments
    | .absent => get_default_treatments

/-- Python `str()` of a JSON value as interpolated into the f-string: a string
interpolates as its contents; a dict interpolates as its repr (only the string
case is exercised by well-formed records). -/
def pyStr : Json → String
  | .str s => s
  | .obj _ => "<dict>"

/-- Python subscript `v[k]` on a dynamic value: key lookup on a dict
(`KeyError` when absent), `TypeError` on a string. -/
def jsonField (v : Json) (k : String) : Except String Json :=
  match v with
  | .str _ => .error "TypeError"
  | .obj fields =>
    match dictGet (fields) k with
    | some x => .ok x
    | none => .error ("KeyError: " ++ k)

/-- The generic miss message of `get_treatment_suggestion` (line 170). -/
def missMessage (disease_name : String) : String :=
  "No specific treatment information available for " ++ disease_name ++
  ". Please consult with a local agricultural extension service or plant pathologist for proper diagnosis and treatment recommendations."

/-- `get_treatment_suggestion` (disease_treatments.py lines 154-170): reload
the database, then on a hit compose the three fields into the message (a
missing field raises `KeyError`), and on a miss return the generic message. -/
def get_treatment_suggestion (kb : KBState) (disease_name : String) :
    Except String String :=
  let treatments_db := load_treatments_database kb
  if dictContains treatments_db disease_name then
    match dictGet treatments_db disease_name with
    | none => .error "KeyError: " -- unreachable: contains implies get
    | some disease_info => do
      let d ← jsonField disease_info "description"
      let t ← jsonField disease_info "treatment"
      let p ← jsonField disease_info "prevention"
      .ok (pyStr d ++ "\n\nTreatment: " ++ pyStr t ++ "\n\nPrevention: " ++ pyStr p)
  else
    .ok (missMessage disease_name)

/-! Image preprocessing (`backend/model_utils.py`). -/

/-- PIL image mode: the channel layouts the pipeline distinguishes. -/
inductive PMode where
  | RGB
  | RGBA
  | L
  | P
  deriving DecidableEq, Repr

/-- A decoded PIL image: mode, size, and pixel data.  `px row col chan` gives
the raw 8-bit channel value (channels beyond the mode are ignored). -/
structure PILImage where
  mode : PMode
  width : Nat
  height : Nat
  px : Nat → Nat → Nat → Fin 256

/-- Shape of `np.array(image)`: `(height, width)` for single-channel modes,
`(height, width, 3)` for RGB and `(height, width, 4)` for RGBA. -/
def npShape (img : PILImage) : List Nat :=
  match img.mode with
  | .RGB => [img.height, img.width, 3]
  | .RGBA => [img.height, img.width, 4]
  | .L => [img.height, img.width]
  | .P => [img.height, img.width]

/-- `image.resize(target_size)` with `target_size = (width, height)`: same
mode, new dimensions; resampling is modelled as nearest-neighbour (raw values
are taken from the source, so they stay 8-bit). -/
def pilResize (img : PILImage) (target_size : Nat × Nat) : PILImage :=
  { mode := img.mode
    width := target_size.1
    height := target_size.2
    px := fun i j c =>
      img.px (i * img.height / max target_size.2 1)
             (j * img.width / max target_size.1 1) c }

/-- `image.convert("RGB")` (main.py line 90): the result is a 3-channel RGB
image of the same size; channel contents for palette/grayscale sources are
abstracted (grayscale replicates, alpha is dropped), and every channel value
remains an 8-bit value from the source. -/
def pilConvertRGB (img : PILImage) : PILImage :=
  { mode := .RGB
    width := img.width
    height := img.height
    px := fun i j c =>
      match img.mode with
      | .RGB => img.px i j c
      | .RGBA => img.px i j (min c 2)
      | .L => img.px i j 0
      | .P => img.px i j 0 }

/-- A NumPy array after normalisation: its shape, and the value at each index
vector `[batch, row, col, chan]` (trailing indices ignored for lower ranks). -/
structure NpArray where
  shape : List Nat
  val : List Nat → ℚ

/-- `preprocess_image` (model_utils.py lines 61-89): resize to `target_size`,
convert to a float array, divide by 255.0, and prepend a batch dimension.  No
mode conversion happens here: the array keeps the channel layout of the input
image. -/
def preprocess_image (image : PILImage) (target_size : Nat × Nat := (224, 224)) :
    NpArray :=
  let resized := pilResize image target_size
  { shape := 1 :: npShape resized
    val := fun ix =>
      (resized.px (ix.getD 1 0) (ix.getD 2 0) (ix.getD 3 0) : ℚ) / 255 }

/-- The RGB-normalisation step of the predict pipeline (main.py lines 89-90):
convert to RGB unless the decoded image is already RGB. -/
def toRGBIfNeeded (image : PILImage) : PILImage :=
  if image.mode ≠ PMode.RGB then pilConvertRGB image else image

/-! Classifier selection and confidence (`backend/main.py`). -/

/-- Maximum of a probability vector (`0` for the empty vector, which the code
never selects from: `np.argmax` raises on it). -/
def listMax : List ℚ → ℚ
  | [] => 0
  | x :: xs => xs.foldl max x

/-- `np.argmax`: index of the first occurrence of the maximum. -/
def argmaxIdx (l : List ℚ) : Nat :=
  (l.findIdx? (fun x => x = listMax l)).getD 0

/-- Python banker rounding (round-half-to-even) to an integer. -/
def roundHalfEven (q : ℚ) : ℤ :=
  let f := q.floor
  let r := q - f
  if r < 1 / 2 then f
  else if 1 / 2 < r then f + 1
  else if f % 2 = 0 then f else f + 1

/-- Python `round(x, 2)`: round to two decimal places, ties to even. -/
def round2 (x : ℚ) : ℚ :=
  (roundHalfEven (x * 100) : ℚ) / 100

/-- The LabelSet of the service: the `disease_names` list of main.py lines
106-145, transcribed in order. -/
def disease_names : List String :=
  ["Wheat Rust", "Wheat Blast", "Wheat Scab", "Wheat Healthy",
   "Rice Blast", "Rice Brown Spot", "Rice Bacterial Blight", "Rice Healthy",
   "Corn Northern Leaf Blight", "Corn Common Rust", "Corn Gray Leaf Spot",
   "Corn Southern Rust", "Corn Healthy",
   "Barley Scald", "Barley Net Blotch", "Barley Healthy",
   "Tomato Bacterial Spot", "Tomato Early Blight", "Tomato Late Blight",
   "Tomato Leaf Mold", "Tomato Septoria Leaf Spot", "Tomato Spider Mites",
   "Tomato Target Spot", "Tomato Yellow Leaf Curl Virus", "Tomato Mosaic Virus",
   "Tomato Healthy",
   "Potato Early Blight", "Potato Late Blight", "Potato Scab",
   "Potato Blackleg", "Potato Healthy",
   "Pepper Bacterial Spot", "Pepper Anthracnose", "Pepper Healthy",
   "Cucumber Downy Mildew", "Cucumber Powdery Mildew", "Cucumber Anthracnose",
   "Cucumber Healthy",
   "Lettuce Downy Mildew", "Lettuce Bacterial Soft Rot", "Lettuce Healthy",
   "Carrot Leaf Blight", "Carrot Root Rot", "Carrot Healthy",
   "Apple Scab", "Apple Fire Blight", "Apple Powdery Mildew", "Apple Healthy",
   "Citrus Canker", "Citrus Greening", "Citrus Melanose", "Citrus Healthy",
   "Grape Downy Mildew", "Grape Powdery Mildew", "Grape Black Rot",
   "Grape Healthy",
   "Strawberry Powdery Mildew", "Strawberry Gray Mold",
   "Strawberry Anthracnose", "Strawberry Healthy",
   "Soybean Rust", "Soybean Bacterial Blight", "Soybean Healthy",
   "Bean Anthracnose", "Bean Rust", "Bean Healthy",
   "Sweet Potato Scab", "Sweet Potato Healthy",
   "Cassava Mosaic Disease", "Cassava Brown Streak Disease", "Cassava Healthy"]

/-! Model loading (`backend/model_utils.py` lines 13-59). -/

/-- A loaded Keras model, abstracted to its output dimensionality (the
classifier itself is an opaque capability). -/
structure KerasModel where
  outputDim : Nat
  deriving DecidableEq, Repr

/-- `create_dummy_model` (model_utils.py lines 37-59): a softmax head with 85
output classes. -/
def create_dummy_model : KerasModel :=
  { outputDim := 85 }

/-- State of the model artifact at `model_path`: missing file, present but
`tf.keras.models.load_model` raises, or loads as a model. -/
inductive ModelResource where
  | missing
  | loadError
  | valid (m : KerasModel)

/-- `load_model` (model_utils.py lines 13-35): missing file or a load
exception both fall back to the dummy model; the function never raises. -/
def load_model (r : ModelResource) : KerasModel :=
  match r with
  | .missing => create_dummy_model
  | .loadError => create_dummy_model
  | .valid m => m

/-- The startup hook (main.py lines 44-54): sets the process-wide `model`
global to the result of `load_model` (which is total, so the except branch of
the hook is dead and the global is always assigned). -/
def load_model_on_startup (r : ModelResource) : Option KerasModel :=
  some (load_model r)

/-! The `/predict` endpoint (`backend/main.py` lines 66-165). -/

/-- A Python exception as raised inside the endpoint body: either an
`HTTPException` carrying a status code and detail, or any other exception
carrying its message. -/
inductive PyExc where
  | http (status : Nat) (detail : String)
  | other (msg : String)

/-- Python `str()` of an exception: starlette renders an `HTTPException` as
`"{status_code}: {detail}"`; other exceptions render as their message. -/
def excStr : PyExc → String
  | .http status detail => toString status ++ ": " ++ detail
  | .other msg => msg

/-- The HTTP error the endpoint finally raises. -/
structure HttpErr where
  status : Nat
  detail : String
  deriving DecidableEq, Repr

/-- The success payload of `/predict` (main.py lines 153-157). -/
structure ApiResponse where
  disease_name : String
  confidence_score : ℚ
  treatment_suggestion : String
  deriving DecidableEq, Repr

/-- The upload as the endpoint sees it: the declared content type, and the
result of `Image.open` on the uploaded bytes (`ok` image, or the message of
the exception decoding raises). -/
structure Request where
  content_type : String
  decodeResult : Except String PILImage

/-- Outcome of one request, together with which internal points were reached
(used to state unreachability properties). -/
structure PredictOutcome where
  result : Except HttpErr ApiResponse
  preprocessorInvoked : Bool
  modelMissingHit : Bool

/-- Wrap an in-flight exception the way the blanket handler of main.py lines
163-165 does: every exception raised inside the `try` — the 400
`HTTPException` included, since `HTTPException` subclasses `Exception` — is
caught and re-raised as a 500 whose detail prepends `"Prediction failed: "`
to `str(e)`. -/
def wrapPredictionFailure (e : PyExc) : HttpErr :=
  { status := 500, detail := "Prediction failed: " ++ excStr e }

/-- `predict_disease` (main.py lines 66-165).  `kb` is the knowledge-base
state read by the treatment lookup, `mstate` the process-wide model global,
`req` the upload, and `probs` the probability vector `predictions[0]` the
model returns for this request (the classifier is opaque; its output is a
parameter).  The body mirrors the `try` block: content-type check, decode,
RGB conversion, preprocessing, model check, argmax, label mapping, treatment
lookup, response; any raise lands in the blanket handler. -/
def predict_disease (kb : KBState) (mstate : Option KerasModel) (req : Request)
    (probs : List ℚ) : PredictOutcome :=
  if ¬ req.content_type.startsWith "image/" then
    { result := .error (wrapPredictionFailure (.http 400 "File must be an image"))
      preprocessorInvoked := false
      modelMissingHit := false }
  else
    match req.decodeResult with
    | .error msg =>
      { result := .error (wrapPredictionFailure (.other msg))
        preprocessorInvoked := false
        modelMissingHit := false }
    | .ok image =>
      let rgb := toRGBIfNeeded image
      let _processed := preprocess_image rgb
      match mstate with
      | none =>
        { result := .error (wrapPredictionFailure (.http 500 "Model not loaded"))
          preprocessorInvoked := true
          modelMissingHit := true }
      | some _ =>
        if probs = [] then
          { result := .error (wrapPredictionFailure
              (.other "attempt to get argmax of an empty sequence"))
            preprocessorInvoked := true
            modelMissingHit := false }
        else
          let class_index := argmaxIdx probs
          let confidence := probs.getD class_index 0
          let dname :=
            if class_index < disease_names.length then
              disease_names.getD class_index ""
            else "Unknown Disease"
          match get_treatment_suggestion kb dname with
          | .error emsg =>
            { result := .error (wrapPredictionFailure (.other emsg))
              preprocessorInvoked := true
              modelMissingHit := false }
          | .ok treatment =>
            { result := .ok
                { disease_name := dname
                  confidence_score := round2 (confidence * 100)
                  treatment_suggestion := treatment }
              preprocessorInvoked := true
              modelMissingHit := false }

/-! Concrete sample inputs used to instantiate the theorems. -/

/-- A record is complete when all three lookup fields are present. -/
def recordComplete (j : Json) : Prop :=
  (∃ d, jsonField j "description" = .ok d) ∧
  (∃ t, jsonField j "treatment" = .ok t) ∧
  (∃ p, jsonField j "prevention" = .ok p)

/-- Substring containment, stated by explicit decomposition. -/
def strContains (s sub : String) : Prop :=
  ∃ a b, s = a ++ (sub ++ b)

/-- A one-record flat catalog with a complete record. -/
def flatCat1 : Dict :=
  [("X", mkRecord "d" "t" "p")]

/-- A one-record catalog whose record lacks the treatment and prevention
fields. -/
def incompleteCat : Dict :=
  [("X", Json.obj [("description", Json.str "d")])]

/-- The knowledge-base state with neither file present: the loader serves the
embedded default table. -/
def defaultKB : KBState :=
  { comprehensive := .absent, flat := .absent }

/-- A decoded grayscale test image. -/
def imgL : PILImage :=
  { mode := .L, width := 10, height := 10, px := fun _ _ _ => 0 }

/-- A decoded RGB test image. -/
def imgRGB : PILImage :=
  { mode := .RGB, width := 32, height := 32, px := fun _ _ _ => 0 }

/-- A well-formed upload: declared as an image and decodable. -/
def sampleReq : Request :=
  { content_type := "image/jpeg", decodeResult := .ok imgRGB }

/-- Classifier output putting probability 1 at index 0 over 85 classes. -/
def oneHot85 : List ℚ :=
  1 :: List.replicate 84 0

/-- Classifier output whose argmax index 71 is one past the end of the
71-entry label list. -/
def probsOut : List ℚ :=
  List.replicate 71 0 ++ [1]

/-! Helper lemmas. -/

theorem dictGet_of_contains {d : Dict} {k : String} (h : dictContains d k = true) :
    ∃ v, dictGet d k = some v := by
  induction d with
  | nil => simp [dictContains] at h
  | cons p tl ih =>
    by_cases hk : p.1 = k
    · exact ⟨p.2, by simp [dictGet, hk]⟩
    · have htl : dictContains tl k = true := by
        simpa [dictContains, hk] using h
      rcases ih htl with ⟨v, hv⟩
      exact ⟨v, by simpa [dictGet, hk] using hv⟩

theorem dictInsert_of_not_contains {d : Dict} {k : String} {v : Json}
    (h : d.any (fun p => p.1 = k) = false) :
    dictInsert d k v = d ++ [(k, v)] := by
  unfold dictInsert
  simp [h]

theorem foldl_dictInsert_disjoint :
    ∀ (d acc : Dict), (∀ p ∈ d, acc.any (fun q => q.1 = p.1) = false) →
      uniqueKeys d →
      d.foldl (fun a r => dictInsert a r.1 r.2) acc = acc ++ d := by
  intro d
  induction d with
  | nil => intro acc _ _; simp
  | cons hd tl ih =>
    intro acc hdisj huniq
    have h0 : acc.any (fun q => q.1 = hd.1) = false := hdisj hd (List.mem_cons_self hd tl)
    have step : dictInsert acc hd.1 hd.2 = acc ++ [(hd.1, hd.2)] :=
      dictInsert_of_not_contains h0
    have huniq2 : (hd.1 :: tl.map Prod.fst).Nodup := by
      simpa [uniqueKeys] using huniq
    have huniq' : uniqueKeys tl := by
      unfold uniqueKeys
      exact huniq2.of_cons
    have hne : ∀ p ∈ tl, ¬ p.1 = hd.1 := by
      intro p hp he
      exact (List.nodup_cons.mp huniq2).1 (he ▸ List.mem_map_of_mem Prod.fst hp)
    have hdisj' : ∀ p ∈ tl, (acc ++ [(hd.1, hd.2)]).any (fun q => q.1 = p.1) = false := by
      intro p hp
      have h1 : acc.any (fun q => q.1 = p.1) = false := hdisj p (List.mem_cons_of_mem hd hp)
      simp only [List.any_append, h1, Bool.false_or, List.any_cons, List.any_nil,
        Bool.or_false]
      simp only [decide_eq_false_iff_not]
      exact fun he => hne p hp (by rw [← he])
    calc (hd :: tl).foldl (fun a r => dictInsert a r.1 r.2) acc
        = tl.foldl (fun a r => dictInsert a r.1 r.2) (acc ++ [(hd.1, hd.2)]) := by
          simp [List.foldl_cons, step]
      _ = (acc ++ [(hd.1, hd.2)]) ++ tl := ih (acc ++ [(hd.1, hd.2)]) hdisj' huniq'
      _ = acc ++ (hd :: tl) := by simp

/-! C1: fallback order of the catalog loader. -/

/-- C1, counterexample: with the hierarchical resource present but failing to
parse and the flat resource present and well-formed, the loader returns the
embedded default table — the flat tier is skipped, contradicting the claim
that a parse failure falls through to the flat resource. -/
theorem C1_cex :
    load_treatments_database { comprehensive := .corrupt, flat := .present flatCat1 } =
      get_default_treatments ∧
    load_treatments_database { comprehensive := .corrupt, flat := .present flatCat1 } ≠
      flatCat1 := by
  constructor
  · rfl
  · intro h
    have := congrArg List.length h
    simp only [load_treatments_database] at this
    revert this
    decide

/-- C1, amended: a failure at any tier is caught and answered with the
embedded default table directly (the final tier never fails); only *absence*
of the hierarchical resource falls through to the flat tier, and a parsed
hierarchical resource that flattens is used flattened. -/
theorem C1_amended :
    (∀ f, load_treatments_database { comprehensive := .corrupt, flat := f } =
      get_default_treatments) ∧
    (∀ j f e, flatten_disease_database j = .error e →
      load_treatments_database { comprehensive := .present j, flat := f } =
        get_default_treatments) ∧
    (∀ j f c, flatten_disease_database j = .ok c →
      load_treatments_database { comprehensive := .present j, flat := f } = c) ∧
    (∀ c, load_treatments_database { comprehensive := .absent, flat := .present c } = c) ∧
    load_treatments_database { comprehensive := .absent, flat := .corrupt } =
      get_default_treatments ∧
    load_treatments_database { comprehensive := .absent, flat := .absent } =
      get_default_treatments := by
  refine ⟨fun f => rfl, ?_, ?_, fun c => rfl, rfl, rfl⟩
  · intro j f e he
    simp [load_treatments_database, he]
  · intro j f c hc
    simp [load_treatments_database, hc]

/-- C1, witness for the amended theorem at concrete resources: a hierarchical
resource that fails to flatten, next to a healthy flat resource, yields the
default table. -/
theorem C1_amended_witness :
    flatten_disease_database (Json.str "junk") = .error "AttributeError" ∧
    load_treatments_database
      { comprehensive := .present (Json.str "junk"), flat := .present flatCat1 } =
      get_default_treatments :=
  ⟨rfl, C1_amended.2.1 (Json.str "junk") (.present flatCat1) "AttributeError" rfl⟩

/-! C5: LabelSet length versus classifier output dimensionality. -/

/-- C5, counterexample: the configured label list has 71 entries while the
dummy classifier outputs 85 classes, so the claimed invariant
`LabelSet length ≥ output dimensionality` is false for the service's
configuration. -/
theorem C5_cex : ¬ (create_dummy_model.outputDim ≤ disease_names.length) := by
  decide

/-- C5, amended: the configured LabelSet is strictly shorter (71) than the
dummy classifier's output dimensionality (85), and the mismatch is reachable:
a valid 85-class probability distribution exists whose argmax index lies
outside the LabelSet. -/
theorem C5_amended :
    disease_names.length = 71 ∧
    create_dummy_model.outputDim = 85 ∧
    disease_names.length < create_dummy_model.outputDim ∧
    ∃ probs : List ℚ, probs.length = create_dummy_model.outputDim ∧
      (∀ p ∈ probs, 0 ≤ p ∧ p ≤ 1) ∧ probs.sum = 1 ∧
      disease_names.length ≤ argmaxIdx probs := by
  refine ⟨rfl, rfl, by decide, List.replicate 84 0 ++ [1], by decide, ?_, ?_, ?_⟩
  · intro p hp
    rcases List.mem_append.mp hp with h | h
    · rcases List.eq_of_mem_replicate h with rfl
      exact ⟨le_refl 0, by norm_num⟩
    · rcases List.mem_singleton.mp h with rfl
      exact ⟨by norm_num, le_refl 1⟩
  · rw [List.sum_append, List.sum_replicate]
    simp
  · with_unfolding_all decide

/-! C9: flattening a degenerate hierarchy. -/

/-- C9, counterexample: applying the flattening transform directly to an
already-flat structure does not yield that structure back — the transform
tries to iterate the string field values of each record and raises
`AttributeError`, so the claimed idempotence equation fails. -/
theorem C9_cex :
    flatten_disease_database (Json.obj flatCat1) = .error "AttributeError" ∧
    flatten_disease_database (Json.obj flatCat1) ≠ .ok flatCat1 := by
  refine ⟨rfl, fun h => ?_⟩
  rw [show flatten_disease_database (Json.obj flatCat1) = .error "AttributeError" from rfl] at h
  exact Except.noConfusion h

/-- C9, amended: the degenerate hierarchy that wraps a flat catalog in a
single category containing a single crop flattens to exactly that catalog
(for duplicate-free keys); the flattening transform applied directly to the
flat catalog itself instead raises `AttributeError`. -/
theorem C9_amended (d : Dict) (h : uniqueKeys d) :
    flatten_disease_database
      (Json.obj [("category", Json.obj [("crop", Json.obj d)])]) = .ok d := by
  have hfold : d.foldl (fun a r => dictInsert a r.1 r.2) [] = [] ++ d :=
    foldl_dictInsert_disjoint d [] (fun p _ => rfl) h
  simp only [flatten_disease_database, List.foldlM, bind, Except.bind]
  rw [hfold]
  rfl

/-- C9, witness: the amended theorem at the concrete one-record catalog. -/
theorem C9_amended_witness :
    uniqueKeys flatCat1 ∧
    flatten_disease_database
      (Json.obj [("category", Json.obj [("crop", Json.obj flatCat1)])]) =
      .ok flatCat1 :=
  ⟨by unfold uniqueKeys flatCat1; exact List.nodup_singleton _,
   C9_amended flatCat1 (by unfold uniqueKeys flatCat1; exact List.nodup_singleton _)⟩

/-! C3: totality of the treatment lookup. -/

/-- C3, counterexample: on a catalog whose record for `X` lacks the treatment
and prevention fields, the lookup raises `KeyError` instead of returning a
string — it neither treats the record as absent nor falls through to the
generic miss message. -/
theorem C3_cex :
    get_treatment_suggestion { comprehensive := .absent, flat := .present incompleteCat } "X" =
      .error "KeyError: treatment" ∧
    ∀ s, get_treatment_suggestion { comprehensive := .absent, flat := .present incompleteCat } "X" ≠
      .ok s := by
  refine ⟨rfl, fun s h => ?_⟩
  rw [show get_treatment_suggestion { comprehensive := .absent, flat := .present incompleteCat } "X" =
      .error "KeyError: treatment" from rfl] at h
  exact Except.noConfusion h

/-- C3, amended: the lookup returns a string and never throws *provided*
every record it can hit has all three fields, and a missed name always gets
exactly the generic miss message.  (A record missing a field makes the
lookup raise `KeyError`, as the counterexample shows, rather than fall
through.) -/
theorem C3_amended (kb : KBState) (name : String)
    (h : ∀ rec, dictGet (load_treatments_database kb) name = some rec → recordComplete rec) :
    (∃ s, get_treatment_suggestion kb name = .ok s) ∧
    (dictContains (load_treatments_database kb) name = false →
      get_treatment_suggestion kb name = .ok (missMessage name)) := by
  constructor
  · unfold get_treatment_suggestion
    by_cases hc : dictContains (load_treatments_database kb) name = true
    · rcases dictGet_of_contains hc with ⟨rec, hrec⟩
      rcases h rec hrec with ⟨⟨d, hd⟩, ⟨t, ht⟩, ⟨p, hp⟩⟩
      refine ⟨pyStr d ++ "\n\nTreatment: " ++ pyStr t ++ "\n\nPrevention: " ++ pyStr p, ?_⟩
      simp [hc, hrec, hd, ht, hp, bind, Except.bind]
    · refine ⟨missMessage name, ?_⟩
      simp [hc]
  · intro hc
    unfold get_treatment_suggestion
    simp [hc]

/-- C3, witness: the amended theorem at the complete one-record catalog, at
its sole key "X" (the hit path) and at the absent key "Y" (the miss path,
pinned to the generic miss message). -/
theorem C3_amended_witness :
    (∀ rec, dictGet (load_treatments_database { comprehensive := .absent, flat := .present flatCat1 }) "X" =
      some rec → recordComplete rec) ∧
    (∃ s, get_treatment_suggestion { comprehensive := .absent, flat := .present flatCat1 } "X" = .ok s) ∧
    dictContains (load_treatments_database { comprehensive := .absent, flat := .present flatCat1 }) "Y" = false ∧
    get_treatment_suggestion { comprehensive := .absent, flat := .present flatCat1 } "Y" =
      .ok (missMessage "Y") := by
  have h : ∀ rec, dictGet (load_treatments_database { comprehensive := .absent, flat := .present flatCat1 }) "X" =
      some rec → recordComplete rec := by
    intro rec hrec
    have : rec = mkRecord "d" "t" "p" := by
      rw [show dictGet (load_treatments_database { comprehensive := .absent, flat := .present flatCat1 }) "X" =
        some (mkRecord "d" "t" "p") from rfl] at hrec
      exact (Option.some.injEq _ _ ▸ hrec).symm
    rw [this]
    exact ⟨⟨.str "d", rfl⟩, ⟨.str "t", rfl⟩, ⟨.str "p", rfl⟩⟩
  have hY : ∀ rec, dictGet (load_treatments_database { comprehensive := .absent, flat := .present flatCat1 }) "Y" =
      some rec → recordComplete rec := by
    intro rec hrec
    rw [show dictGet (load_treatments_database { comprehensive := .absent, flat := .present flatCat1 }) "Y" =
      none from rfl] at hrec
    exact Option.noConfusion hrec
  exact ⟨h, (C3_amended _ "X" h).1, rfl, (C3_amended _ "Y" hY).2 rfl⟩

/-! C8: the composed hit message. -/

/-- C8: for every name whose catalog record carries all three fields, the
lookup returns exactly the composed message
`"{description}\n\nTreatment: {treatment}\n\nPrevention: {prevention}"`, and
that message contains the literal substrings `"Treatment:"` and
`"Prevention:"`. -/
theorem C8_exact (kb : KBState) (name : String) (rec d t p : Json)
    (hrec : dictGet (load_treatments_database kb) name = some rec)
    (hd : jsonField rec "description" = .ok d)
    (ht : jsonField rec "treatment" = .ok t)
    (hp : jsonField rec "prevention" = .ok p) :
    get_treatment_suggestion kb name =
      .ok (pyStr d ++ "\n\nTreatment: " ++ pyStr t ++ "\n\nPrevention: " ++ pyStr p) ∧
    strContains (pyStr d ++ "\n\nTreatment: " ++ pyStr t ++ "\n\nPrevention: " ++ pyStr p)
      "Treatment:" ∧
    strContains (pyStr d ++ "\n\nTreatment: " ++ pyStr t ++ "\n\nPrevention: " ++ pyStr p)
      "Prevention:" := by
  have hc : dictContains (load_treatments_database kb) name = true := by
    unfold dictContains
    unfold dictGet at hrec
    rcases hfind : (load_treatments_database kb).find? (fun q => q.1 = name) with _ | q
    · rw [hfind] at hrec; exact Option.noConfusion hrec
    · have hq := List.find?_some hfind
      exact List.any_eq_true.mpr ⟨q, List.mem_of_find?_eq_some hfind, hq⟩
  have key1 : ∀ X : String, ("\n\nTreatment: " : String) ++ X =
      "\n\n" ++ ("Treatment:" ++ (" " ++ X)) := by
    intro X
    rw [← String.append_assoc, ← String.append_assoc]
    rfl
  have key2 : ∀ X : String, ("\n\nPrevention: " : String) ++ X =
      "\n\n" ++ ("Prevention:" ++ (" " ++ X)) := by
    intro X
    rw [← String.append_assoc, ← String.append_assoc]
    rfl
  refine ⟨?_, ?_, ?_⟩
  · unfold get_treatment_suggestion
    simp [hc, hrec, hd, ht, hp, bind, Except.bind]
  · refine ⟨pyStr d ++ "\n\n",
      " " ++ (pyStr t ++ ("\n\nPrevention: " ++ pyStr p)), ?_⟩
    simp only [String.append_assoc]
    rw [key1 (pyStr t ++ ("\n\nPrevention: " ++ pyStr p))]
  · refine ⟨pyStr d ++ ("\n\nTreatment: " ++ (pyStr t ++ "\n\n")),
      " " ++ pyStr p, ?_⟩
    simp only [String.append_assoc]
    rw [key2 (pyStr p)]

/-- C8, witness: the complete one-record catalog, looked up at its key. -/
theorem C8_exact_witness :
    dictGet (load_treatments_database { comprehensive := .absent, flat := .present flatCat1 }) "X" =
      some (mkRecord "d" "t" "p") ∧
    get_treatment_suggestion { comprehensive := .absent, flat := .present flatCat1 } "X" =
      .ok ("d" ++ "\n\nTreatment: " ++ "t" ++ "\n\nPrevention: " ++ "p") ∧
    strContains ("d" ++ "\n\nTreatment: " ++ "t" ++ "\n\nPrevention: " ++ "p") "Treatment:" ∧
    strContains ("d" ++ "\n\nTreatment: " ++ "t" ++ "\n\nPrevention: " ++ "p") "Prevention:" :=
  ⟨rfl, C8_exact { comprehensive := .absent, flat := .present flatCat1 } "X"
    (mkRecord "d" "t" "p") (.str "d") (.str "t") (.str "p") rfl rfl rfl rfl⟩

/-! Argmax lemmas. -/

theorem listMax_mem (l : List ℚ) (h : l ≠ []) : listMax l ∈ l := by
  cases l with
  | nil => exact absurd rfl h
  | cons x xs =>
    exact List.max?_mem max_choice (show (x :: xs).max? = some (listMax (x :: xs)) from rfl)

theorem argmaxIdx_spec (l : List ℚ) (h : l ≠ []) :
    argmaxIdx l < l.length ∧ l.getD (argmaxIdx l) 0 = listMax l := by
  have hex : ∃ x, x ∈ l ∧ decide (x = listMax l) = true :=
    ⟨listMax l, listMax_mem l h, by simp⟩
  have hfind := List.findIdx?_eq_some_of_exists hex
  rcases List.findIdx?_eq_some_iff_getElem.mp hfind with ⟨hlt, hp, _⟩
  have hidx : argmaxIdx l = l.findIdx (fun x => decide (x = listMax l)) := by
    rw [argmaxIdx, hfind]
    rfl
  refine ⟨hidx ▸ hlt, ?_⟩
  rw [hidx, List.getD_eq_getElem l 0 (hidx ▸ hlt)]
  exact of_decide_eq_true hp

/-! C2: handling of a non-image content type. -/

/-- C2: for every upload whose declared content type is not an image, the
endpoint raises the 400 `HTTPException` inside the `try`, but the blanket
`except Exception` (which catches `HTTPException`, a subclass of `Exception`)
re-raises it as the generic 500 pipeline error; the preprocessor is indeed
never invoked on such a request. -/
theorem C2_eval (kb : KBState) (ms : Option KerasModel) (req : Request)
    (probs : List ℚ) (h : req.content_type.startsWith "image/" = false) :
    predict_disease kb ms req probs =
      { result := .error (HttpErr.mk 500 "Prediction failed: 400: File must be an image")
        preprocessorInvoked := false
        modelMissingHit := false } := by
  unfold predict_disease
  rw [h]
  rfl

/-- C2, witness: a `text/plain` upload. -/
theorem C2_eval_witness :
    ("text/plain").startsWith "image/" = false ∧
    predict_disease defaultKB (some create_dummy_model)
      { content_type := "text/plain", decodeResult := .error "cannot identify image file" } [] =
      { result := .error (HttpErr.mk 500 "Prediction failed: 400: File must be an image")
        preprocessorInvoked := false
        modelMissingHit := false } :=
  ⟨by with_unfolding_all decide, C2_eval defaultKB (some create_dummy_model)
    { content_type := "text/plain", decodeResult := .error "cannot identify image file" } []
    (by with_unfolding_all decide)⟩

/-! C10: totality of model loading and unreachability of the
"Model not loaded" branch. -/

/-- C10: `load_model` is total — a missing file and a load exception both
fall back to the dummy model — so the startup hook always assigns a model
and the `model is None` 500 branch of the predict operation is never taken
after startup, whatever the request. -/
theorem C10_total (r : ModelResource) (kb : KBState) (req : Request) (probs : List ℚ) :
    load_model_on_startup r ≠ none ∧
    load_model .missing = create_dummy_model ∧
    load_model .loadError = create_dummy_model ∧
    (predict_disease kb (load_model_on_startup r) req probs).modelMissingHit = false := by
  refine ⟨fun h => Option.noConfusion h, rfl, rfl, ?_⟩
  unfold predict_disease load_model_on_startup
  split
  · rfl
  · split
    · rfl
    · split
      · rename_i heq
        exact Option.noConfusion heq
      · split
        · rfl
        · dsimp only
          split <;> rfl

/-- C10, witness: concrete instantiation at a missing model file. -/
theorem C10_total_witness :
    load_model_on_startup .missing ≠ none ∧
    load_model .missing = create_dummy_model ∧
    load_model .loadError = create_dummy_model ∧
    (predict_disease defaultKB (load_model_on_startup .missing) sampleReq []).modelMissingHit
      = false :=
  C10_total .missing defaultKB sampleReq []

/-! C6: the Unknown Disease sentinel. -/

/-- C6: when the argmax index falls outside the configured label list, the
request still completes successfully and the response carries the sentinel
label "Unknown Disease" (with the generic miss message as treatment, since
no catalog tier contains that sentinel). -/
theorem C6_unknown (kb : KBState) (m : KerasModel) (req : Request) (probs : List ℚ)
    (img : PILImage)
    (hct : req.content_type.startsWith "image/" = true)
    (hdec : req.decodeResult = .ok img)
    (hne : probs ≠ [])
    (hout : disease_names.length ≤ argmaxIdx probs)
    (hud : dictContains (load_treatments_database kb) "Unknown Disease" = false) :
    (predict_disease kb (some m) req probs).result = .ok
      { disease_name := "Unknown Disease"
        confidence_score := round2 (probs.getD (argmaxIdx probs) 0 * 100)
        treatment_suggestion := missMessage "Unknown Disease" } := by
  have hlt : ¬ (argmaxIdx probs < disease_names.length) := Nat.not_lt.mpr hout
  have hts : get_treatment_suggestion kb "Unknown Disease" = .ok (missMessage "Unknown Disease") := by
    unfold get_treatment_suggestion
    simp [hud]
  unfold predict_disease
  simp [hct, hdec, hne, hlt, hts]

/-- C6, witness: an out-of-range one-hot output (index 71 over a 72-long
vector against the 71-entry LabelSet) completes with the sentinel. -/
theorem C6_unknown_witness :
    sampleReq.content_type.startsWith "image/" = true ∧
    disease_names.length ≤ argmaxIdx probsOut ∧
    (predict_disease defaultKB (some create_dummy_model) sampleReq probsOut).result = .ok
      { disease_name := "Unknown Disease"
        confidence_score := 100
        treatment_suggestion := missMessage "Unknown Disease" } := by
  have h1 : sampleReq.content_type.startsWith "image/" = true := by
    with_unfolding_all decide
  have h2 : disease_names.length ≤ argmaxIdx probsOut := by
    with_unfolding_all decide
  have h3 := C6_unknown defaultKB create_dummy_model sampleReq probsOut imgRGB h1 rfl
    (by with_unfolding_all decide) h2 (by decide)
  have h4 : round2 (probsOut.getD (argmaxIdx probsOut) 0 * 100) = 100 := by
    with_unfolding_all decide
  exact ⟨h1, h2, by rw [h3, h4]⟩

/-! C7: confidence reporting. -/

/-- C7: whenever the pipeline completes, the reported confidence equals the
selected (maximum) probability times 100, rounded to two decimal places; in
particular, the one-hot classifier output with probability 1 at index 0
yields confidence 100.0 and the first label of the LabelSet, "Wheat Rust". -/
theorem C7_conf :
    (∀ (kb : KBState) (ms : Option KerasModel) (req : Request) (probs : List ℚ)
      (r : ApiResponse), (predict_disease kb ms req probs).result = .ok r →
      r.confidence_score = round2 (listMax probs * 100)) ∧
    (predict_disease defaultKB (some create_dummy_model) sampleReq oneHot85).result = .ok
      { disease_name := "Wheat Rust"
        confidence_score := 100
        treatment_suggestion := missMessage "Wheat Rust" } ∧
    disease_names.getD 0 "" = "Wheat Rust" := by
  refine ⟨?_, ?_, rfl⟩
  · intro kb ms req probs r h
    unfold predict_disease at h
    split at h
    · exact Except.noConfusion h
    · split at h
      · exact Except.noConfusion h
      · split at h
        · exact Except.noConfusion h
        · dsimp only at h
          split at h
          · exact Except.noConfusion h
          · rename_i hne
            split at h
            · exact Except.noConfusion h
            · rcases Except.ok.injEq _ _ ▸ h with rfl
              simpa using congrArg (fun q : ℚ => round2 (q * 100))
                (argmaxIdx_spec probs hne).2
  · with_unfolding_all rfl

/-- C7, witness: the general confidence equation instantiated at the one-hot
output, discharged through the concrete run. -/
theorem C7_conf_witness :
    (predict_disease defaultKB (some create_dummy_model) sampleReq oneHot85).result = .ok
      { disease_name := "Wheat Rust"
        confidence_score := 100
        treatment_suggestion := missMessage "Wheat Rust" } ∧
    (100 : ℚ) = round2 (listMax oneHot85 * 100) :=
  ⟨C7_conf.2.1, C7_conf.1 defaultKB (some create_dummy_model) sampleReq oneHot85
    { disease_name := "Wheat Rust", confidence_score := 100
      treatment_suggestion := missMessage "Wheat Rust" } C7_conf.2.1⟩

/-! C4: preprocessing shape and range. -/

theorem fin256_div_bounds (n : Fin 256) : 0 ≤ (n : ℚ) / 255 ∧ (n : ℚ) / 255 ≤ 1 := by
  constructor
  · apply div_nonneg _ (by norm_num : (0:ℚ) ≤ 255)
    exact_mod_cast Nat.zero_le n.val
  · rw [div_le_one (by norm_num : (0:ℚ) < 255)]
    have h : (n : ℕ) ≤ 255 := Nat.lt_succ_iff.mp n.isLt
    exact_mod_cast h

/-- C4, counterexample: `preprocess_image` itself performs no channel-layout
conversion — on a grayscale input it returns a rank-3 array of shape
(1, 224, 224), not (1, 224, 224, 3), so the claim that preprocess converts
non-RGB input itself fails. -/
theorem C4_cex :
    (preprocess_image imgL).shape = [1, 224, 224] ∧
    (preprocess_image imgL).shape ≠ [1, 224, 224, 3] := by
  exact ⟨rfl, by decide⟩

/-- C4, amended: the RGB conversion lives in the caller (the predict
operation converts any non-RGB image before invoking preprocess); for every
image, the caller's convert-then-preprocess composition produces a tensor of
shape (1, 224, 224, 3) whose values (raw 8-bit channels divided by 255) all
lie in [0, 1]. -/
theorem C4_amended (img : PILImage) :
    (toRGBIfNeeded img).mode = PMode.RGB ∧
    (preprocess_image (toRGBIfNeeded img)).shape = [1, 224, 224, 3] ∧
    ∀ ix : List Nat, 0 ≤ (preprocess_image (toRGBIfNeeded img)).val ix ∧
      (preprocess_image (toRGBIfNeeded img)).val ix ≤ 1 := by
  have hmode : (toRGBIfNeeded img).mode = PMode.RGB := by
    unfold toRGBIfNeeded
    by_cases h : img.mode = PMode.RGB <;> simp [h, pilConvertRGB]
  refine ⟨hmode, ?_, ?_⟩
  · simp [preprocess_image, pilResize, npShape, hmode]
  · intro ix
    exact fin256_div_bounds _

/-- C4, witness: the amended pipeline property at the grayscale image and a
concrete index. -/
theorem C4_amended_witness :
    (toRGBIfNeeded imgL).mode = PMode.RGB ∧
    (preprocess_image (toRGBIfNeeded imgL)).shape = [1, 224, 224, 3] ∧
    0 ≤ (preprocess_image (toRGBIfNeeded imgL)).val [0, 0, 0, 0] ∧
    (preprocess_image (toRGBIfNeeded imgL)).val [0, 0, 0, 0] ≤ 1 :=
  ⟨(C4_amended imgL).1, (C4_amended imgL).2.1,
   ((C4_amended imgL).2.2 [0, 0, 0, 0]).1, ((C4_amended imgL).2.2 [0, 0, 0, 0]).2⟩

end CropDisease
